import Mathlib

/-!
Verification development for the ytarchive utility module (util.go).

Go byte slices are modelled as `List Nat` (each element a byte value),
Go strings as Lean `String` or `List Char` (the inputs of interest are
ASCII, where Go's byte indexing and Lean's character indexing agree),
Go `int`/`int64` as `Int` with explicit range checks where the source
checks them, and fallible parsing as `Option`.
-/

namespace YTA

/-- Lowercase hex digit character for a value below 16, as produced by
encoding/hex. -/
def hexDigitChar (n : Nat) : Char :=
  if n < 10 then Char.ofNat (48 + n) else Char.ofNat (97 + (n - 10))

/-- Two lowercase hex digit characters of one byte, as encoding/hex Encode
renders it. -/
def hexByte (b : Nat) : List Char :=
  [hexDigitChar (b / 16 % 16), hexDigitChar (b % 16)]

/-- The printable-ASCII column character of one byte in a hexdump line:
the byte itself when printable, otherwise a dot. -/
def dumpAscii (b : Nat) : Char :=
  if 32 ≤ b ∧ b ≤ 126 then Char.ofNat b else '.'

/-- Embedding of encoding/hex Dump for at most 16 input bytes, which is the
only way GetAtoms calls it (always exactly 4 bytes): a single line consisting
of the offset column 00000000, two spaces, sixteen three-character byte slots
(two hex digits and a space, or three spaces for a missing byte), an extra
space after the eighth slot, a space, and the ASCII gutter between vertical
bars, terminated by a newline. The empty input dumps to the empty string. -/
def hexDump (bs : List Nat) : List Char :=
  if bs.isEmpty then []
  else
    ['0', '0', '0', '0', '0', '0', '0', '0', ' ', ' ']
      ++ (List.range 16).flatMap (fun i =>
            (match bs.get? i with
             | some b => hexByte b
             | none => [' ', ' ']) ++ [' '] ++ (if i = 7 then [' '] else []))
      ++ [' ', '|'] ++ bs.map dumpAscii ++ ['|', '\n']

/-- strconv: numeric value of a digit character, accepting 0-9 and both
letter cases, as in ParseUint's per-character conversion. -/
def digitVal (c : Char) : Option Nat :=
  if '0' ≤ c ∧ c ≤ '9' then some (c.toNat - '0'.toNat)
  else if 'a' ≤ c ∧ c ≤ 'z' then some (c.toNat - 'a'.toNat + 10)
  else if 'A' ≤ c ∧ c ≤ 'Z' then some (c.toNat - 'A'.toNat + 10)
  else none

/-- The digit-consuming loop of strconv.ParseUint: every character must be a
digit valid for the base, the accumulator is built most-significant first. -/
def parseUintDigits (base : Nat) : List Char → Nat → Option Nat
  | [], acc => some acc
  | c :: cs, acc =>
    match digitVal c with
    | some d => if d < base then parseUintDigits base cs (acc * base + d) else none
    | none => none

/-- strconv.ParseUint with an explicit base (2..36) and bitSize 64: no sign,
no base prefix, no digit separators accepted; out-of-range values are an
error (modelled as none, since every caller in the source only distinguishes
error from success). -/
def goParseUint64 (base : Nat) (cs : List Char) : Option Nat :=
  if cs.isEmpty then none
  else
    match parseUintDigits base cs 0 with
    | some n => if n < 2 ^ 64 then some n else none
    | none => none

/-- strconv.ParseInt with an explicit base and bitSize 0 (64-bit int): an
optional leading sign followed by ParseUint, with the int64 range check. -/
def goParseInt64 (base : Nat) (cs : List Char) : Option Int :=
  match cs with
  | [] => none
  | c :: rest =>
    let sd : Bool × List Char :=
      if c = '+' then (false, rest)
      else if c = '-' then (true, rest)
      else (false, c :: rest)
    match goParseUint64 base sd.2 with
    | none => none
    | some n =>
      if sd.1 then
        if n ≤ 2 ^ 63 then some (-(n : Int)) else none
      else
        if n < 2 ^ 63 then some (n : Int) else none

/-- One top-level box found in a buffer, as in the source. -/
structure Atom where
  Offset : Int
  Length : Int
deriving DecidableEq

/-- The scan loop of GetAtoms. The atoms map is an association list where a
later insertion shadows an earlier one (Go map overwrite); fuel bounds the
recursion (the loop body either breaks or advances, and in fact, as proved
below, always breaks on its first iteration). -/
def getAtomsLoop (data : List Nat) : Nat → Int → List (String × Atom) → List (String × Atom)
  | 0, _, atoms => atoms
  | fuel + 1, ofs, atoms =>
    if ofs + 8 > (data.length : Int) then atoms
    else
      match goParseInt64 16 (hexDump ((data.drop ofs.toNat).take 4)) with
      | none => atoms
      | some aLen =>
        if aLen > (data.length : Int) then atoms
        else
          let aName : String := ⟨((data.drop (ofs.toNat + 4)).take 4).map Char.ofNat⟩
          getAtomsLoop data fuel (ofs + aLen) ((aName, ⟨ofs, aLen⟩) :: atoms)

/-- GetAtoms from the source: repeatedly read a 4-byte length field (rendered
with hex.Dump and handed to strconv.ParseInt base 16) and a 4-byte name,
recording each box until the loop breaks. -/
def GetAtoms (data : List Nat) : List (String × Atom) :=
  getAtomsLoop data (data.length + 1) 0 []

/-- RemoveSidx from the source: excise the byte range of the sidx atom found
by GetAtoms, or return the input unchanged when there is none. -/
def RemoveSidx (data : List Nat) : List Nat :=
  match (GetAtoms data).lookup "sidx" with
  | none => data
  | some sidx =>
    let ofs := sidx.Offset
    let rlen := sidx.Offset + sidx.Length
    data.take ofs.toNat ++ data.drop rlen.toNat

/-- A synthetic buffer of four well-formed length-prefixed boxes: ftyp (8
bytes), sidx (12 bytes, with 4 payload bytes), moof (8 bytes), mdat (8
bytes); every 4-byte big-endian length is inclusive of the 8-byte header. -/
def ftypBox : List Nat := [0, 0, 0, 8, 102, 116, 121, 112]

/-- The sidx box of the synthetic buffer: declared length 12, tag sidx,
4 payload bytes. -/
def sidxBox : List Nat := [0, 0, 0, 12, 115, 105, 100, 120, 1, 2, 3, 4]

/-- The moof box of the synthetic buffer. -/
def moofBox : List Nat := [0, 0, 0, 8, 109, 111, 111, 102]

/-- The mdat box of the synthetic buffer. -/
def mdatBox : List Nat := [0, 0, 0, 8, 109, 100, 97, 116]

/-- Concatenation of the four synthetic boxes. -/
def c1Buffer : List Nat := ftypBox ++ sidxBox ++ moofBox ++ mdatBox

/-! ## Fragment worker state machine

The DownloadInfo collaborator is declared outside util.go. Its surface is
modelled from the spec (§3 and §6): a snapshot of network-derived state
(liveness, unavailability, per-data-type download URL), per-data-type
finished flags, and the direct-download-link mode flag. GetVideoInfo
re-reads the network-derived snapshot; the fresh snapshot is passed to each
operation as an explicit argument standing for the network's answer. -/

/-- Modelled from the spec: the network-derived part of the collaborator's
state, refreshed as a whole by GetVideoInfo (spec §6: liveness,
unavailability, current download URL per data type). -/
structure Status where
  live : Bool
  unavailable : Bool
  downloadUrl : String → String

/-- Modelled from the spec: the DownloadInfo collaborator (spec §3): the
refreshable status snapshot, the per-data-type finished flags, and the
direct-download-link mode flag, which is fixed for the session. -/
structure DownloadInfo where
  status : Status
  finished : String → Bool
  gvideoDDL : Bool

/-- Modelled from the spec: liveness query on the collaborator. -/
def DownloadInfo.IsLive (di : DownloadInfo) : Bool := di.status.live

/-- Modelled from the spec: unavailability query on the collaborator. -/
def DownloadInfo.IsUnavailable (di : DownloadInfo) : Bool := di.status.unavailable

/-- Modelled from the spec: query of the finished flag of one data type. -/
def DownloadInfo.IsFinished (di : DownloadInfo) (dataType : String) : Bool :=
  di.finished dataType

/-- Modelled from the spec: set the finished flag of one data type to true. -/
def DownloadInfo.SetFinished (di : DownloadInfo) (dataType : String) : DownloadInfo :=
  { di with finished := fun d => if d = dataType then true else di.finished d }

/-- Modelled from the spec: query of the currently-advertised download URL of
one data type. -/
def DownloadInfo.GetDownloadUrl (di : DownloadInfo) (dataType : String) : String :=
  di.status.downloadUrl dataType

/-- Modelled from the spec: direct-download-link mode query. -/
def DownloadInfo.IsGVideoDDL (di : DownloadInfo) : Bool := di.gvideoDDL

/-- Modelled from the spec: GetVideoInfo refreshes the liveness,
unavailability and URL state from the network (the fresh snapshot is the
argument); it does not touch the finished flags or the session mode. -/
def DownloadInfo.GetVideoInfo (di : DownloadInfo) (ns : Status) : DownloadInfo :=
  { di with status := ns }

/-- Modelled from the spec: per-worker state (spec §3 FragmentWorkerState);
the fields mirror the source's uses of fragThreadState in
ContinueFragmentDownload and the error handlers. maxSeq uses the sentinel -1
for unknown. -/
structure fragThreadState where
  Name : String
  DataType : String
  SeqNum : Int
  MaxSeq : Int
  Tries : Int
  FullRetries : Int
  Is403 : Bool

/-- Modelled from the spec: the configured per-fragment retry ceiling; the
constant is declared outside util.go. Its value is irrelevant to every claim
below. -/
def FragMaxTries : Int := 10

/-- Modelled from the spec: the audio data type label, declared outside
util.go. -/
def DtypeAudio : String := "audio"

/-- Modelled from the spec: the video data type label, declared outside
util.go. -/
def DtypeVideo : String := "video"

/-- Modelled from the spec: the platform's reserved audio itag constant,
declared outside util.go. -/
def AudioItag : Int := 140

/-- net/http StatusForbidden. -/
def StatusForbidden : Int := 403

/-- net/http StatusNotFound. -/
def StatusNotFound : Int := 404

/-- RefreshURL from the source. The returned flag records whether
GetVideoInfo was invoked on the collaborator (the network refresh request);
ns is the fresh snapshot that call would install. -/
def RefreshURL (di : DownloadInfo) (dataType currentUrl : String) (ns : Status) :
    DownloadInfo × Bool :=
  if !di.IsGVideoDDL then
    let newUrl := di.GetDownloadUrl dataType
    if currentUrl.length = 0 ∨ newUrl = currentUrl then
      (di.GetVideoInfo ns, true)
    else (di, false)
  else (di, false)

/-- ContinueFragmentDownload from the source, returning the updated
collaborator, the updated worker state, and the continue/stop decision. -/
def ContinueFragmentDownload (di : DownloadInfo) (state : fragThreadState) (ns : Status) :
    DownloadInfo × fragThreadState × Bool :=
  if di.IsFinished state.DataType then (di, state, false)
  else if state.Tries ≥ FragMaxTries then
    let state1 := { state with FullRetries := state.FullRetries - 1 }
    let di1 := if di.IsLive then di.GetVideoInfo ns else di
    if !di1.IsLive then
      if di1.IsUnavailable && state1.Is403 then
        (di1.SetFinished state1.DataType, state1, false)
      else if state1.MaxSeq > -1 ∧ state1.SeqNum < state1.MaxSeq - 2 ∧ state1.FullRetries > 0 then
        (di1, state1, true)
      else
        (di1.SetFinished state1.DataType, state1, false)
    else
      (di1, { state1 with Tries := 0 }, true)
  else (di, state, true)

/-- HandleFragHttpError from the source: a 403 sets is403 and requests a URL
refresh; a 404 with a known maxSeq, a stream no longer live, and seqNum above
maxSeq - 2 marks the data type finished; other codes change nothing. -/
def HandleFragHttpError (di : DownloadInfo) (state : fragThreadState) (statusCode : Int)
    (url : String) (ns : Status) : DownloadInfo × fragThreadState :=
  if statusCode = StatusForbidden then
    let state1 := { state with Is403 := true }
    ((RefreshURL di state1.DataType url ns).1, state1)
  else if statusCode = StatusNotFound ∧ state.MaxSeq > -1 ∧ di.IsLive = false ∧
      state.SeqNum > state.MaxSeq - 2 then
    (di.SetFinished state.DataType, state)
  else (di, state)

/-- HandleFragDownloadError from the source: a non-HTTP transport error marks
the data type finished when maxSeq is known, the stream is not live, and
seqNum is at least maxSeq - 2; otherwise nothing changes. The error value is
only logged. -/
def HandleFragDownloadError (di : DownloadInfo) (state : fragThreadState) (_err : String) :
    DownloadInfo × fragThreadState :=
  if state.MaxSeq > -1 ∧ di.IsLive = false ∧ state.SeqNum ≥ state.MaxSeq - 2 then
    (di.SetFinished state.DataType, state)
  else (di, state)

/-- Concrete collaborator state for the C3 witness: everything finished. -/
def di3 : DownloadInfo :=
  { status := { live := false, unavailable := false, downloadUrl := fun _ => "u" },
    finished := fun _ => true, gvideoDDL := false }

/-- Concrete worker state for the C3 witness. -/
def st3 : fragThreadState :=
  { Name := "video", DataType := "video", SeqNum := 5, MaxSeq := 12,
    Tries := 0, FullRetries := 3, Is403 := false }

/-- Concrete fresh snapshot used by several witnesses. -/
def nsW : Status := { live := false, unavailable := false, downloadUrl := fun _ => "u" }

/-- Concrete collaborator state for the C4 witness: not live, unavailable,
nothing finished. -/
def di4 : DownloadInfo :=
  { status := { live := false, unavailable := true, downloadUrl := fun _ => "u" },
    finished := fun _ => false, gvideoDDL := false }

/-- Concrete worker state for the C4 witness: retry ceiling reached after a
403. -/
def st4 : fragThreadState :=
  { Name := "video", DataType := "video", SeqNum := 5, MaxSeq := 12,
    Tries := 10, FullRetries := 3, Is403 := true }

/-- Concrete collaborator state for the C5 counterexample and witness: not
live, available, nothing finished. -/
def di5 : DownloadInfo :=
  { status := { live := false, unavailable := false, downloadUrl := fun _ => "u" },
    finished := fun _ => false, gvideoDDL := false }

/-- Concrete worker state for the C5 counterexample: the retry ceiling is
reached, the worker trails the known maximum by more than 2, and exactly one
full retry remains on entry. -/
def st5 : fragThreadState :=
  { Name := "video", DataType := "video", SeqNum := 0, MaxSeq := 10,
    Tries := 10, FullRetries := 1, Is403 := false }

/-- Concrete worker state for the C5 amended-claim witness: two full retries
remain on entry. -/
def st5w : fragThreadState :=
  { Name := "video", DataType := "video", SeqNum := 0, MaxSeq := 10,
    Tries := 10, FullRetries := 2, Is403 := false }

/-- Concrete worker state for the C6 counterexample: seqNum 10 with maxSeq
12, which the claim says is close enough to finish on a 404. -/
def st6 : fragThreadState :=
  { Name := "video", DataType := "video", SeqNum := 10, MaxSeq := 12,
    Tries := 0, FullRetries := 3, Is403 := false }

/-! ## Direct-URL parser and manifest parser -/

/-- The outcome of net/url Parse as the source consumes it: the hostname
(host without port) and the decoded query pairs in order (url.Values keeps
repeated keys as multiple values; Get returns the first). The parse outcome
is passed to ParseGvideoUrl as an explicit argument standing for the stdlib
call, with none for a parse error. -/
structure GoURL where
  hostname : String
  query : List (String × String)

/-- url.Values Get: first value for the key, or the empty string. -/
def queryGet (q : List (String × String)) (k : String) : String :=
  match q.lookup k with
  | some v => v
  | none => ""

/-- Presence of a key in the query map. -/
def queryHas (q : List (String × String)) (k : String) : Bool :=
  (q.lookup k).isSome

/-- strconv.Atoi: ParseInt with base 10 and the platform int size. -/
def goAtoi (s : String) : Option Int := goParseInt64 10 s.data

/-- strings.ToLower on the character sequence (the inputs of interest are
ASCII hostnames, where Go and Lean lowercase identically). -/
def goToLower (s : String) : String := ⟨s.data.map Char.toLower⟩

/-- strings.HasSuffix on the character sequences. -/
def goHasSuffix (s sfx : String) : Bool := sfx.data.isSuffixOf s.data

/-- The scan of strings.Index: position of the first occurrence of sub, or
-1. -/
def goStringsIndexAux (sub : List Char) : List Char → Int → Int
  | [], i => if sub.isPrefixOf ([] : List Char) then i else -1
  | c :: rest, i => if sub.isPrefixOf (c :: rest) then i else goStringsIndexAux sub rest (i + 1)

/-- strings.Index over the character sequences of the two strings. -/
def goStringsIndex (s sub : String) : Int := goStringsIndexAux sub.data s.data 0

/-- ParseGvideoUrl from the source: validate the URL (host on the provider
domain, a noclen marker, an itag matching the requested data type, a literal
sq marker) and templatize it by replacing everything from the sq marker
onward with the sequence-number placeholder. Every validation failure
returns the empty template and itag 0. -/
def ParseGvideoUrl (parsed : Option GoURL) (gvUrl dataType : String) : String × Int :=
  match parsed with
  | none => ("", 0)
  | some u =>
    let lowerHost := goToLower u.hostname
    let sqIndex := goStringsIndex gvUrl "&sq="
    match goAtoi (queryGet u.query "itag") with
    | none => ("", 0)
    | some itag =>
      if !(goHasSuffix lowerHost ".googlevideo.com") then ("", 0)
      else if !(queryHas u.query "noclen") then ("", 0)
      else if dataType = DtypeAudio ∧ itag ≠ AudioItag then ("", 0)
      else if dataType = DtypeVideo ∧ itag = AudioItag then ("", 0)
      else if sqIndex < 0 then ("", 0)
      else (⟨gvUrl.data.take sqIndex.toNat⟩ ++ "&sq=%s", itag)

/-- The scan of strings.ReplaceAll for a non-empty pattern: at each position
either the pattern matches and is replaced, or one character is kept; fuel
is the input length (each step consumes at least one character). -/
def goReplaceAllAux (old new : List Char) : Nat → List Char → List Char
  | 0, s => s
  | _ + 1, [] => []
  | fuel + 1, c :: rest =>
    if old.isPrefixOf (c :: rest) then
      new ++ goReplaceAllAux old new fuel ((c :: rest).drop old.length)
    else c :: goReplaceAllAux old new fuel rest

/-- strings.ReplaceAll. An empty pattern inserts the replacement before,
between, and after every character, as in Go. -/
def goReplaceAll (s old new : String) : String :=
  if old.data.isEmpty then ⟨new.data ++ s.data.flatMap (fun c => c :: new.data)⟩
  else ⟨goReplaceAllAux old.data new.data s.data.length s.data⟩

/-- DASH manifest element from the source: the id attribute and the base
URL. -/
structure Representation where
  Id : String
  BaseURL : String

/-- Loop body of GetUrlsFromManifest: skip an id that does not parse or is
not positive or an empty base URL; otherwise store the percent-escaped base
URL with the fragment-index suffix under the itag, a later entry shadowing
an earlier one (Go map overwrite, modelled by consing with first-match
lookup). -/
def manifestStep (urls : List (Int × String)) (r : Representation) : List (Int × String) :=
  match goAtoi r.Id with
  | none => urls
  | some itag =>
    if itag > 0 ∧ 0 < r.BaseURL.length then
      (itag, goReplaceAll r.BaseURL "%" "%%" ++ "sq/%d") :: urls
    else urls

/-- GetUrlsFromManifest from the source; the xml.Unmarshal outcome is passed
as an explicit argument standing for the stdlib call, with none for a parse
error (which yields the empty map). -/
def GetUrlsFromManifest (reps : Option (List Representation)) : List (Int × String) :=
  match reps with
  | none => []
  | some rs => rs.foldl manifestStep []

/-- Written from the claim: a representation supplies the template for an
itag when its id parses to exactly that itag, the itag is positive, and the
base URL is non-empty. -/
def specValid (itag : Int) (r : Representation) : Bool :=
  goAtoi r.Id == some itag && decide (0 < itag) && decide (0 < r.BaseURL.length)

/-- Written from the claim: the template the spec promises for an itag is
built from the LAST representation valid for it (later duplicates
overwrite), with literal percent characters doubled and the fixed
fragment-index suffix appended. -/
def manifestTemplateSpec (rs : List Representation) (itag : Int) : Option String :=
  (rs.reverse.find? (specValid itag)).map
    (fun r => goReplaceAll r.BaseURL "%" "%%" ++ "sq/%d")

/-- Concrete parse outcome for the C9 witness: provider host, noclen
present, audio itag. -/
def gvU : GoURL :=
  { hostname := "r4.googlevideo.com",
    query := [("noclen", ""), ("itag", "140"), ("sq", "0")] }

/-- Concrete parse outcome for the C9 witness failure case: noclen
missing. -/
def gvUNoNoclen : GoURL :=
  { hostname := "r4.googlevideo.com", query := [("itag", "140"), ("sq", "0")] }

/-- Concrete raw URL for the C9 witness. -/
def gvUrlStr : String :=
  "https://r4.googlevideo.com/videoplayback?noclen&itag=140&sq=0&rn=5"

/-- The manifest representation of the C10 concrete instance. -/
def rep140 : Representation := { Id := "140", BaseURL := "http://x/y?a=1%b" }

theorem goParseInt64_hexDump (bs : List Nat) :
    goParseInt64 16 (hexDump bs) = none := by
  cases bs with
  | nil => rfl
  | cons b t => rfl

theorem getAtomsLoop_eq_init (data : List Nat) (fuel : Nat) (ofs : Int)
    (atoms : List (String × Atom)) : getAtomsLoop data fuel ofs atoms = atoms := by
  cases fuel with
  | zero => rfl
  | succ n =>
    unfold getAtomsLoop
    split
    · rfl
    · rw [goParseInt64_hexDump]

theorem getAtoms_eq_nil (data : List Nat) : GetAtoms data = [] :=
  getAtomsLoop_eq_init data (data.length + 1) 0 []

/-- C2: for every input buffer, GetAtoms records no atom at all, because the
4-byte length field is rendered with hex.Dump, whose hexdump-formatted output
is never a numeral that strconv.ParseInt base 16 accepts, so the scan loop
breaks on its first iteration; consequently RemoveSidx returns its input
unchanged for every buffer. -/
theorem getAtoms_always_empty :
    (∀ bs : List Nat, goParseInt64 16 (hexDump bs) = none) ∧
    (∀ data : List Nat, GetAtoms data = []) ∧
    (∀ data : List Nat, RemoveSidx data = data) := by
  refine ⟨goParseInt64_hexDump, getAtoms_eq_nil, fun data => ?_⟩
  unfold RemoveSidx
  rw [getAtoms_eq_nil]
  rfl

/-- C1: on the synthetic four-box buffer with correct length prefixes, the
code returns the buffer unchanged instead of the concatenation of the three
boxes other than sidx: the atom scan never parses a length (see C2), so the
declared 12-byte sidx box is not excised and the total length is not
reduced. -/
theorem removeSidx_c1Buffer_unchanged :
    RemoveSidx c1Buffer = c1Buffer ∧
    RemoveSidx c1Buffer ≠ ftypBox ++ moofBox ++ mdatBox ∧
    c1Buffer.length = 36 := by
  refine ⟨?_, ?_, ?_⟩ <;> decide

theorem setFinished_isFinished (di : DownloadInfo) (dt dt' : String) :
    (di.SetFinished dt').IsFinished dt = (if dt = dt' then true else di.IsFinished dt) := rfl

theorem setFinished_self (di : DownloadInfo) (dt : String) :
    (di.SetFinished dt).IsFinished dt = true := by
  rw [setFinished_isFinished]
  simp

theorem setFinished_preserves (di : DownloadInfo) (dt dt' : String)
    (h : di.IsFinished dt = true) : (di.SetFinished dt').IsFinished dt = true := by
  rw [setFinished_isFinished]
  split <;> simp [h]

theorem getVideoInfo_isFinished (di : DownloadInfo) (ns : Status) (dt : String) :
    (di.GetVideoInfo ns).IsFinished dt = di.IsFinished dt := rfl

theorem refreshURL_fst_cases (di : DownloadInfo) (dtype curl : String) (ns : Status) :
    (RefreshURL di dtype curl ns).1 = di ∨
    (RefreshURL di dtype curl ns).1 = di.GetVideoInfo ns := by
  unfold RefreshURL
  dsimp only
  split_ifs <;> simp

theorem continueFragmentDownload_fst_cases (di : DownloadInfo) (st : fragThreadState)
    (ns : Status) :
    (ContinueFragmentDownload di st ns).1 = di ∨
    (ContinueFragmentDownload di st ns).1 = di.SetFinished st.DataType ∨
    (ContinueFragmentDownload di st ns).1 = di.GetVideoInfo ns ∨
    (ContinueFragmentDownload di st ns).1 = (di.GetVideoInfo ns).SetFinished st.DataType := by
  unfold ContinueFragmentDownload
  dsimp only
  split_ifs <;> simp

theorem handleFragHttpError_fst_cases (di : DownloadInfo) (st : fragThreadState) (sc : Int)
    (url : String) (ns : Status) :
    (HandleFragHttpError di st sc url ns).1 = di ∨
    (HandleFragHttpError di st sc url ns).1 = di.SetFinished st.DataType ∨
    (HandleFragHttpError di st sc url ns).1 = di.GetVideoInfo ns := by
  unfold HandleFragHttpError
  dsimp only
  split_ifs
  · rcases refreshURL_fst_cases di st.DataType url ns with h | h <;> simp [h]
  · simp
  · simp

theorem handleFragDownloadError_fst_cases (di : DownloadInfo) (st : fragThreadState)
    (e : String) :
    (HandleFragDownloadError di st e).1 = di ∨
    (HandleFragDownloadError di st e).1 = di.SetFinished st.DataType := by
  unfold HandleFragDownloadError
  split_ifs <;> simp

/-- C3: once a data type is marked finished, ContinueFragmentDownload returns
stop, and none of the four core operations ever changes a finished flag from
true back to false. -/
theorem finished_flag_monotone (di : DownloadInfo) (st : fragThreadState) (ns : Status)
    (dt : String) (sc : Int) (url curl dtype e : String) :
    (di.IsFinished st.DataType = true → (ContinueFragmentDownload di st ns).2.2 = false) ∧
    (di.IsFinished dt = true →
      (ContinueFragmentDownload di st ns).1.IsFinished dt = true ∧
      (HandleFragHttpError di st sc url ns).1.IsFinished dt = true ∧
      (HandleFragDownloadError di st e).1.IsFinished dt = true ∧
      (RefreshURL di dtype curl ns).1.IsFinished dt = true) := by
  constructor
  · intro h
    unfold ContinueFragmentDownload
    simp [h]
  · intro h
    have hgv : (di.GetVideoInfo ns).IsFinished dt = true := h
    refine ⟨?_, ?_, ?_, ?_⟩
    · rcases continueFragmentDownload_fst_cases di st ns with hc | hc | hc | hc
      · rw [hc]; exact h
      · rw [hc]; exact setFinished_preserves _ dt _ h
      · rw [hc]; exact hgv
      · rw [hc]; exact setFinished_preserves _ dt _ hgv
    · rcases handleFragHttpError_fst_cases di st sc url ns with hc | hc | hc
      · rw [hc]; exact h
      · rw [hc]; exact setFinished_preserves _ dt _ h
      · rw [hc]; exact hgv
    · rcases handleFragDownloadError_fst_cases di st e with hc | hc
      · rw [hc]; exact h
      · rw [hc]; exact setFinished_preserves _ dt _ h
    · rcases refreshURL_fst_cases di dtype curl ns with hc | hc
      · rw [hc]; exact h
      · rw [hc]; exact hgv

/-- C3 witness: with every data type already finished, the decision stops and
every operation leaves the flag true. -/
theorem finished_flag_monotone_witness :
    (ContinueFragmentDownload di3 st3 nsW).2.2 = false ∧
    (ContinueFragmentDownload di3 st3 nsW).1.IsFinished "video" = true ∧
    (HandleFragHttpError di3 st3 403 "u" nsW).1.IsFinished "video" = true ∧
    (HandleFragDownloadError di3 st3 "reset").1.IsFinished "video" = true ∧
    (RefreshURL di3 "video" "u" nsW).1.IsFinished "video" = true := by
  have h := finished_flag_monotone di3 st3 nsW "video" 403 "u" "u" "video" "reset"
  exact ⟨h.1 rfl, (h.2 rfl).1, (h.2 rfl).2.1, (h.2 rfl).2.2.1, (h.2 rfl).2.2.2⟩

/-- C4: when the stream is not live, the video is unavailable, the last
failure was a 403, and the retry ceiling is reached, the decision marks the
worker's data type finished and returns stop (no refresh is even attempted
in this situation, since the stream is not live). -/
theorem continueFragmentDownload_unavailable403_stops (di : DownloadInfo)
    (st : fragThreadState) (ns : Status)
    (hl : di.IsLive = false) (hu : di.IsUnavailable = true)
    (h4 : st.Is403 = true) (ht : st.Tries ≥ FragMaxTries) :
    (ContinueFragmentDownload di st ns).1.IsFinished st.DataType = true ∧
    (ContinueFragmentDownload di st ns).2.2 = false := by
  unfold ContinueFragmentDownload
  by_cases hf : di.IsFinished st.DataType = true
  · simp [hf]
  · simp only [Bool.not_eq_true] at hf
    simp [hf, ht, hl, hu, h4, setFinished_self]

/-- C4 witness at a concrete unavailable, not-live, 403 state at the retry
ceiling. -/
theorem continueFragmentDownload_unavailable403_stops_witness :
    (ContinueFragmentDownload di4 st4 nsW).1.IsFinished "video" = true ∧
    (ContinueFragmentDownload di4 st4 nsW).2.2 = false :=
  continueFragmentDownload_unavailable403_stops di4 st4 nsW rfl rfl rfl (by decide)

/-- C5 counterexample: with exactly one full retry remaining on entry
(fullRetries = 1 > 0), the retry ceiling reached, the stream not live, and
the worker trailing the known maximum by more than 2, the decision does NOT
permit a further retry: it decrements fullRetries to 0 before testing it,
marks the data type finished, and returns stop — contradicting the claim,
which promises continue without marking finished whenever fullRetries > 0 on
entry. -/
theorem continueFragmentDownload_fullRetries_one_stops :
    st5.FullRetries > 0 ∧ di5.IsLive = false ∧ di5.IsFinished st5.DataType = false ∧
    st5.MaxSeq > -1 ∧ st5.SeqNum ≤ st5.MaxSeq - 3 ∧ st5.Tries ≥ FragMaxTries ∧
    (ContinueFragmentDownload di5 st5 nsW).2.2 = false ∧
    (ContinueFragmentDownload di5 st5 nsW).1.IsFinished st5.DataType = true := by
  refine ⟨by decide, rfl, rfl, by decide, by decide, by decide, ?_, ?_⟩ <;>
    simp [ContinueFragmentDownload, di5, st5, nsW, DownloadInfo.IsFinished,
      DownloadInfo.IsLive, DownloadInfo.IsUnavailable, DownloadInfo.SetFinished,
      FragMaxTries]

/-- C5 amended: with more than one full retry remaining on entry (so the
budget is still positive after the decrement the decision performs first),
the stream not live, the data type not finished, the video not both
unavailable and after a 403, maxSeq known, and the worker trailing maxSeq by
more than 2 at the retry ceiling, the decision returns continue, does not
mark the data type finished, and does not reset tries. -/
theorem continueFragmentDownload_trailing_continues (di : DownloadInfo)
    (st : fragThreadState) (ns : Status)
    (hf : di.IsFinished st.DataType = false) (hl : di.IsLive = false)
    (hna : ¬(di.IsUnavailable = true ∧ st.Is403 = true))
    (hm : st.MaxSeq > -1) (hs : st.SeqNum ≤ st.MaxSeq - 3)
    (ht : st.Tries ≥ FragMaxTries) (hr : st.FullRetries > 1) :
    (ContinueFragmentDownload di st ns).2.2 = true ∧
    (ContinueFragmentDownload di st ns).1.IsFinished st.DataType = false ∧
    (ContinueFragmentDownload di st ns).2.1.Tries = st.Tries := by
  have hs' : st.SeqNum < st.MaxSeq - 2 := by omega
  have hr' : st.FullRetries - 1 > 0 := by omega
  have hna' : ¬(di.IsUnavailable && st.Is403) = true := by
    intro hand
    exact hna (by simpa [Bool.and_eq_true] using hand)
  unfold ContinueFragmentDownload
  simp [hf, ht, hl, hna', hm, hs', hr']

/-- C5 amended-claim witness: with two full retries on entry the concrete
trailing worker is told to continue, unfinished, tries untouched. -/
theorem continueFragmentDownload_trailing_continues_witness :
    (ContinueFragmentDownload di5 st5w nsW).2.2 = true ∧
    (ContinueFragmentDownload di5 st5w nsW).1.IsFinished "video" = false ∧
    (ContinueFragmentDownload di5 st5w nsW).2.1.Tries = 10 :=
  continueFragmentDownload_trailing_continues di5 st5w nsW rfl rfl
    (by intro h; exact absurd h.1 (by decide)) (by decide) (by decide) (by decide) (by decide)

/-- C6 counterexample: a worker at seqNum 10 with maxSeq 12, stream not live,
receiving a 404, does NOT become finished: the handler requires
seqNum > maxSeq - 2, and 10 > 10 is false — contradicting the claim, which
says this worker (within 2 of maxSeq) becomes finished. -/
theorem handleFragHttpError_404_seq10_stays_unfinished :
    st6.SeqNum = 10 ∧ st6.MaxSeq = 12 ∧ di5.IsLive = false ∧
    di5.IsFinished st6.DataType = false ∧
    (HandleFragHttpError di5 st6 StatusNotFound "u" nsW).1.IsFinished st6.DataType = false ∧
    (HandleFragHttpError di5 st6 StatusNotFound "u" nsW).2 = st6 := by
  refine ⟨rfl, rfl, rfl, rfl, ?_, ?_⟩ <;>
    simp [HandleFragHttpError, StatusNotFound, StatusForbidden, di5, st6,
      DownloadInfo.IsFinished, DownloadInfo.IsLive]

/-- C6 amended: on a 404, the handler marks the worker's data type finished
exactly when maxSeq is known, the stream is not live, and seqNum exceeds
maxSeq - 2 (i.e. seqNum is within 1 of maxSeq or beyond); in every other 404
case it changes nothing. In particular a worker at seqNum 11 or 12 with
maxSeq 12, not live, becomes finished, while workers at seqNum 10 or 5 with
maxSeq 12 stay untouched. -/
theorem handleFragHttpError_404_characterization (di : DownloadInfo)
    (st : fragThreadState) (url : String) (ns : Status) :
    HandleFragHttpError di st StatusNotFound url ns =
      (if st.MaxSeq > -1 ∧ di.IsLive = false ∧ st.SeqNum > st.MaxSeq - 2 then
        (di.SetFinished st.DataType, st)
      else (di, st)) := by
  unfold HandleFragHttpError
  have h43 : ¬(StatusNotFound = StatusForbidden) := by decide
  simp [h43]

/-- C7: a non-HTTP transport error marks the worker's data type finished
exactly when the stream is not live, maxSeq is known, and seqNum is within 2
of maxSeq (seqNum at least maxSeq - 2); the worker's own state is never
changed, and when the condition fails the collaborator is untouched as
well. -/
theorem handleFragDownloadError_spec (di : DownloadInfo) (st : fragThreadState) (e : String) :
    ((HandleFragDownloadError di st e).1.IsFinished st.DataType = true ↔
      (di.IsFinished st.DataType = true ∨
        (st.MaxSeq > -1 ∧ di.IsLive = false ∧ st.SeqNum ≥ st.MaxSeq - 2))) ∧
    (HandleFragDownloadError di st e).2 = st ∧
    (¬(st.MaxSeq > -1 ∧ di.IsLive = false ∧ st.SeqNum ≥ st.MaxSeq - 2) →
      (HandleFragDownloadError di st e).1 = di) := by
  unfold HandleFragDownloadError
  split
  · next hc =>
    refine ⟨?_, rfl, fun hn => absurd hc hn⟩
    simp [setFinished_self, hc]
  · next hc =>
    refine ⟨⟨fun hfin => Or.inl hfin, fun hor => ?_⟩, rfl, fun _ => rfl⟩
    rcases hor with hfin | hcond
    · exact hfin
    · exact absurd hcond hc

/-- C7 witness: a concrete not-live worker two fragments from the known
maximum is finished by a transport error; one three away is untouched. -/
theorem handleFragDownloadError_spec_witness :
    (HandleFragDownloadError di5 st6 "reset").1.IsFinished "video" = true ∧
    (HandleFragDownloadError di5 st5 "reset").1 = di5 ∧
    (HandleFragDownloadError di5 st5 "reset").2 = st5 := by
  refine ⟨?_, ?_, ?_⟩
  · exact ((handleFragDownloadError_spec di5 st6 "reset").1).mpr (Or.inr (by decide))
  · exact (handleFragDownloadError_spec di5 st5 "reset").2.2 (by decide)
  · exact (handleFragDownloadError_spec di5 st5 "reset").2.1

/-- C8: RefreshURL requests a network refresh (a GetVideoInfo call) exactly
when the worker is in manifest mode and either no URL has been fetched yet
or the collaborator's currently-advertised URL for the data type equals the
one just used; in direct-download-link mode it never refreshes, and the
collaborator is updated precisely when the refresh is requested. -/
theorem refreshURL_spec (di : DownloadInfo) (dataType currentUrl : String) (ns : Status) :
    ((RefreshURL di dataType currentUrl ns).2 = true ↔
      (di.IsGVideoDDL = false ∧
        (currentUrl.length = 0 ∨ di.GetDownloadUrl dataType = currentUrl))) ∧
    (RefreshURL di dataType currentUrl ns).1 =
      (if di.IsGVideoDDL = false ∧
          (currentUrl.length = 0 ∨ di.GetDownloadUrl dataType = currentUrl) then
        di.GetVideoInfo ns
      else di) := by
  unfold RefreshURL
  by_cases hd : di.IsGVideoDDL
  · simp [hd]
  · simp only [Bool.not_eq_true] at hd
    by_cases hc : currentUrl.length = 0 ∨ di.GetDownloadUrl dataType = currentUrl
    · simp [hd, hc]
    · simp [hd, hc]

/-- C9: ParseGvideoUrl returns, on success, the URL truncated at the sq
marker with the sequence-number placeholder appended together with the
parsed itag, and on every validation failure (parse error, unparseable itag,
wrong host suffix, missing noclen, itag not matching the requested data
type, missing sq marker) the empty template and itag 0. -/
theorem parseGvideoUrl_spec (u : GoURL) (gvUrl dataType : String) (itag : Int) :
    (ParseGvideoUrl none gvUrl dataType = ("", 0)) ∧
    (goAtoi (queryGet u.query "itag") = none →
      ParseGvideoUrl (some u) gvUrl dataType = ("", 0)) ∧
    (goHasSuffix (goToLower u.hostname) ".googlevideo.com" = false →
      ParseGvideoUrl (some u) gvUrl dataType = ("", 0)) ∧
    (queryHas u.query "noclen" = false →
      ParseGvideoUrl (some u) gvUrl dataType = ("", 0)) ∧
    (dataType = DtypeAudio → goAtoi (queryGet u.query "itag") = some itag →
      itag ≠ AudioItag → ParseGvideoUrl (some u) gvUrl dataType = ("", 0)) ∧
    (dataType = DtypeVideo → goAtoi (queryGet u.query "itag") = some itag →
      itag = AudioItag → ParseGvideoUrl (some u) gvUrl dataType = ("", 0)) ∧
    (goStringsIndex gvUrl "&sq=" < 0 →
      ParseGvideoUrl (some u) gvUrl dataType = ("", 0)) ∧
    (goAtoi (queryGet u.query "itag") = some itag →
      goHasSuffix (goToLower u.hostname) ".googlevideo.com" = true →
      queryHas u.query "noclen" = true →
      ¬(dataType = DtypeAudio ∧ itag ≠ AudioItag) →
      ¬(dataType = DtypeVideo ∧ itag = AudioItag) →
      0 ≤ goStringsIndex gvUrl "&sq=" →
      ParseGvideoUrl (some u) gvUrl dataType =
        (⟨gvUrl.data.take (goStringsIndex gvUrl "&sq=").toNat⟩ ++ "&sq=%s", itag)) := by
  refine ⟨rfl, ?_, ?_, ?_, ?_, ?_, ?_, ?_⟩
  · intro hA
    simp [ParseGvideoUrl, hA]
  · intro hsuf
    cases hA : goAtoi (queryGet u.query "itag") with
    | none => simp [ParseGvideoUrl, hA]
    | some j => simp [ParseGvideoUrl, hA, hsuf]
  · intro hnc
    cases hA : goAtoi (queryGet u.query "itag") with
    | none => simp [ParseGvideoUrl, hA]
    | some j =>
      simp only [ParseGvideoUrl, hA]
      split_ifs <;> simp_all
  · intro hdt hA hne
    simp only [ParseGvideoUrl, hA]
    split_ifs <;> simp_all
  · intro hdt hA heq
    simp only [ParseGvideoUrl, hA]
    split_ifs <;> simp_all
  · intro hsq
    cases hA : goAtoi (queryGet u.query "itag") with
    | none => simp [ParseGvideoUrl, hA]
    | some j =>
      simp only [ParseGvideoUrl, hA]
      split_ifs <;> simp_all
  · intro hA hsuf hnc hna hnv hsq
    have hsq' : ¬(goStringsIndex gvUrl "&sq=" < 0) := not_lt.mpr hsq
    simp [ParseGvideoUrl, hA, hsuf, hnc, hna, hnv, hsq']

/-- C9 witness: a provider URL with noclen, audio itag 140 and a sq marker
is templatized for an audio request; dropping noclen, or requesting the same
URL as video, yields the empty template and itag 0. -/
theorem parseGvideoUrl_spec_witness :
    ParseGvideoUrl (some gvU) gvUrlStr DtypeAudio =
      (⟨gvUrlStr.data.take (goStringsIndex gvUrlStr "&sq=").toNat⟩ ++ "&sq=%s", 140) ∧
    (⟨gvUrlStr.data.take (goStringsIndex gvUrlStr "&sq=").toNat⟩ ++ "&sq=%s" : String) =
      "https://r4.googlevideo.com/videoplayback?noclen&itag=140&sq=%s" ∧
    ParseGvideoUrl (some gvUNoNoclen) gvUrlStr DtypeAudio = ("", 0) ∧
    ParseGvideoUrl (some gvU) gvUrlStr DtypeVideo = ("", 0) := by
  refine ⟨?_, by decide, ?_, ?_⟩
  · exact (parseGvideoUrl_spec gvU gvUrlStr DtypeAudio 140).2.2.2.2.2.2.2
      (by decide) (by decide) (by decide) (by decide) (by decide) (by decide)
  · exact (parseGvideoUrl_spec gvUNoNoclen gvUrlStr DtypeAudio 140).2.2.2.1 (by decide)
  · exact (parseGvideoUrl_spec gvU gvUrlStr DtypeVideo 140).2.2.2.2.2.1 rfl
      (by decide) rfl

theorem manifestStep_none {r : Representation} (acc : List (Int × String))
    (h : goAtoi r.Id = none) : manifestStep acc r = acc := by
  unfold manifestStep
  rw [h]

theorem manifestStep_some {r : Representation} {j : Int} (acc : List (Int × String))
    (h : goAtoi r.Id = some j) :
    manifestStep acc r =
      (if j > 0 ∧ 0 < r.BaseURL.length then
        (j, goReplaceAll r.BaseURL "%" "%%" ++ "sq/%d") :: acc
      else acc) := by
  unfold manifestStep
  rw [h]

theorem manifestFold_lookup (rs : List Representation) (itag : Int) :
    ∀ acc : List (Int × String),
      (rs.foldl manifestStep acc).lookup itag =
        ((rs.reverse.find? (specValid itag)).map
          (fun r => goReplaceAll r.BaseURL "%" "%%" ++ "sq/%d")).or (acc.lookup itag) := by
  induction rs with
  | nil => intro acc; simp
  | cons r rs ih =>
    intro acc
    rw [List.foldl_cons, ih (manifestStep acc r), List.reverse_cons, List.find?_append,
      List.find?_singleton]
    cases hf : rs.reverse.find? (specValid itag) with
    | some r' => simp
    | none =>
      simp only [Option.none_or]
      by_cases hv : specValid itag r = true
      · rw [if_pos hv]
        have h3 := hv
        unfold specValid at h3
        simp only [Bool.and_eq_true, beq_iff_eq, decide_eq_true_eq] at h3
        obtain ⟨⟨hid, hpos⟩, hlen⟩ := h3
        rw [manifestStep_some acc hid, if_pos ⟨hpos, hlen⟩]
        simp [List.lookup_cons]
      · rw [if_neg hv]
        simp only [Option.map_none', Option.none_or]
        cases hA : goAtoi r.Id with
        | none => rw [manifestStep_none acc hA]
        | some j =>
          rw [manifestStep_some acc hA]
          by_cases hvj : j > 0 ∧ 0 < r.BaseURL.length
          · rw [if_pos hvj]
            have hne : (itag == j) = false := by
              refine beq_eq_false_iff_ne.mpr ?_
              intro hj
              apply hv
              unfold specValid
              subst hj
              simp [hA, hvj.1, hvj.2]
            simp [List.lookup_cons, hne]
          · rw [if_neg hvj]

/-- C10: looking up any itag in the manifest URL map yields exactly the
spec's template (built from the last representation whose id parses to that
positive itag with a non-empty base URL, percent characters doubled, fixed
fragment-index suffix appended); entries failing those checks are skipped, a
parse error yields the empty map, and the concrete representation with id
140 and base URL containing a literal percent yields the expected
template. -/
theorem getUrlsFromManifest_spec :
    (∀ (rs : List Representation) (itag : Int),
      (GetUrlsFromManifest (some rs)).lookup itag = manifestTemplateSpec rs itag) ∧
    GetUrlsFromManifest none = [] ∧
    (GetUrlsFromManifest (some [rep140])).lookup 140 = some "http://x/y?a=1%%bsq/%d" := by
  refine ⟨fun rs itag => ?_, rfl, by decide⟩
  have h := manifestFold_lookup rs itag []
  simpa [GetUrlsFromManifest, manifestTemplateSpec, Option.or_none] using h

end YTA
